import Mathlib

/-!
Verification of the SPARQL-Burger query builder (SPARQLBurger/SPARQLSyntaxTerms.py
and SPARQLBurger/SPARQLQueryBuilder.py) against its natural-language specification.

The Python classes are embedded shallowly: each class becomes a Lean structure or
inductive type holding the same fields, and each get_text method becomes a Lean
function translated statement by statement from the Python source.  Python's
convention of returning False / the empty string on a render failure is modelled
by Option String (none = falsy result); Python truthiness tests on rendered text
are modelled explicitly.  Brace characters inside string literals are written
with the escapes \x7b and \x7d.
-/

namespace SPARQLBurger

/-- Embeds the Python class Prefix of SPARQLSyntaxTerms.py: a namespace
declaration with fields self.prefix (here pfx) and self.namespace (here ns). -/
structure PrefixDecl where
  pfx : String
  ns : String
deriving DecidableEq, Repr

/-- Prefix.get_text: "PREFIX %s: <%s>\n" % (prefix, namespace). -/
def PrefixDecl.get_text (p : PrefixDecl) : String :=
  "PREFIX " ++ p.pfx ++ ": <" ++ p.ns ++ ">\n"

/-- Embeds the Python class Triple: subject, predicate and object strings
(coerced to str at construction). -/
structure Triple where
  subject : String
  predicate : String
  object : String
deriving DecidableEq, Repr

/-- Triple.get_text: "%s %s %s . \n" % (subject, predicate, object). -/
def Triple.get_text (t : Triple) : String :=
  t.subject ++ " " ++ t.predicate ++ " " ++ t.object ++ " . \n"

/-- Embeds the Python class Filter: a free-form expression string. -/
structure Filter where
  expression : String
deriving DecidableEq, Repr

/-- Filter.get_text: "FILTER (%s)" % expression. -/
def Filter.get_text (f : Filter) : String :=
  "FILTER (" ++ f.expression ++ ")"

/-- Embeds the Python class Having: a free-form expression string. -/
structure Having where
  expression : String
deriving DecidableEq, Repr

/-- Having.get_text: "HAVING (%s)" % expression. -/
def Having.get_text (h : Having) : String :=
  "HAVING (" ++ h.expression ++ ")"

/-- A member of a graph pattern's self.filters list.  Both add_filter and
add_having append to the same list, so it holds Filter or Having objects. -/
inductive FilterEntry where
  | filt : Filter → FilterEntry
  | hav : Having → FilterEntry
deriving DecidableEq, Repr

/-- Dispatches filter.get_text() on the runtime class of the list member. -/
def FilterEntry.get_text : FilterEntry → String
  | .filt f => f.get_text
  | .hav h => h.get_text

/-- The value slots of Binding, Bound and IfClause: each holds either a plain
Python str (the get_text methods test type(x) is str and pass it through) or a
nested renderable object, here a nested Bound or IfClause. -/
inductive BindValue where
  | str : String → BindValue
  | bound : BindValue → BindValue
  | ifClause : BindValue → BindValue → BindValue → BindValue
deriving DecidableEq, Repr

/-- Renders a value slot the way Binding.get_text, Bound.get_text and
IfClause.get_text resolve their slots: a str is passed through verbatim; a
Bound object renders as "BOUND (%s)" around its own resolved slot; an IfClause
object renders as "IF (%s, %s, %s)" around its three resolved slots. -/
def BindValue.get_text : BindValue → String
  | .str s => s
  | .bound v => "BOUND (" ++ v.get_text ++ ")"
  | .ifClause c t f =>
    "IF (" ++ c.get_text ++ ", " ++ t.get_text ++ ", " ++ f.get_text ++ ")"

/-- Embeds the Python class Binding: a value (string or nested renderable) and
the variable it is bound to. -/
structure Binding where
  value : BindValue
  var : String
deriving DecidableEq, Repr

/-- Binding.get_text: "BIND (%s AS %s)" % (value_text, variable). -/
def Binding.get_text (b : Binding) : String :=
  "BIND (" ++ b.value.get_text ++ " AS " ++ b.var ++ ")"

/-- Embeds the Python class GroupBy: an ordered list of variable strings
(the Python attribute self.variables, here vars). -/
structure GroupBy where
  vars : List String
deriving DecidableEq, Repr

/-- GroupBy.get_text: "GROUP BY %s" % " ".join(variables). -/
def GroupBy.get_text (g : GroupBy) : String :=
  "GROUP BY " ++ String.intercalate " " g.vars

/-- Embeds the Python class Values: a list of value strings and the name of the
resulting variable. -/
structure Values where
  values : List String
  name : String
deriving DecidableEq, Repr

/-- Translates Python str.startswith: the candidate's character
sequence is a prefix of the string's character sequence. -/
def py_startswith (s p : String) : Bool :=
  p.data.isPrefixOf s.data

/-- The module-level function in_brackets of SPARQLSyntaxTerms.py: wraps a URI
in angle brackets unless it already starts with "<"; the URI test is
uri.startswith("http"). -/
def in_brackets (uri : String) : String :=
  if py_startswith uri "<" then uri
  else if py_startswith uri "http" then "<" ++ uri ++ ">"
  else uri

/-- Values.get_text: "VALUES %s \x7b%s\x7d" % (name, " ".join(enclosed_values))
where each value is first passed through in_brackets. -/
def Values.get_text (v : Values) : String :=
  "VALUES " ++ v.name ++ " \x7b"
    ++ String.intercalate " " (v.values.map in_brackets) ++ "\x7d"

/-- Indentation helper: the Python expression indentation_depth * "   "
(three spaces repeated depth times). -/
def indent (d : Nat) : String :=
  String.join (List.replicate d "   ")

/-- Translates the Python slice s[:-1] (all characters but the last). -/
def pyTrimLast (s : String) : String :=
  s.data.dropLast.asString

mutual

/-- A member of a SPARQLGraphPattern's self.graph list: get_text dispatches on
type(entry) being Triple, SPARQLGraphPattern or SPARQLSelectQuery. -/
inductive GraphEntry where
  | triple : Triple → GraphEntry
  | pattern : SPARQLGraphPattern → GraphEntry
  | select : SPARQLSelectQuery → GraphEntry

/-- Embeds the Python class SPARQLGraphPattern of SPARQLQueryBuilder.py with
its constructor flags and the four accumulating lists self.graph, self.filters,
self.bindings and self.values.  The malformed variant models the render-time
fault source of the dynamically typed original: Python attributes are public,
so a caller can replace self.values, self.bindings or self.filters by an
ill-typed value (for example p.values = 5, or a list member without a get_text
method); every later get_text call on such a pattern raises inside its try
block and the handler returns the empty string.  The graph list itself is
carried intact, since add_triples (which has no exception handler) still
operates on it normally. -/
inductive SPARQLGraphPattern where
  | mk : (is_optional : Bool) → (is_union : Bool) → (graph : List GraphEntry) →
      (filters : List FilterEntry) → (bindings : List Binding) →
      (values : List Values) → SPARQLGraphPattern
  | malformed : (graph : List GraphEntry) → SPARQLGraphPattern

/-- Embeds the Python class SPARQLSelectQuery (with the self.prefixes and
self.where fields inherited from SPARQLQuery flattened in): prefixes, distinct
flag, limit (the Python default limit=False and all falsy limits are modelled
as 0), selected variables, group-by clauses and the optional where pattern. -/
inductive SPARQLSelectQuery where
  | mk : (prefixes : List PrefixDecl) → (distinct : Bool) → (limit : Nat) →
      (vars : List String) → (group_by : List GroupBy) →
      (whereP : Option SPARQLGraphPattern) → SPARQLSelectQuery

end

/-- The self.graph list of a pattern. -/
def SPARQLGraphPattern.graph : SPARQLGraphPattern → List GraphEntry
  | .mk _ _ g _ _ _ => g
  | .malformed g => g

/-- Python truthiness of a render result: False (none) and the empty string
are falsy, every other string is truthy. -/
def falsyText : Option String → Bool
  | none => true
  | some s => s.isEmpty

mutual

/-- The for-entry-in-self.graph loop of SPARQLGraphPattern.get_text: renders
each entry in order and concatenates; a Triple is rendered inline at the inner
indentation; a nested SPARQLGraphPattern is rendered at indentation_depth + 1
and aborts the whole render (Python: return False) if its text is falsy; a
nested SPARQLSelectQuery is rendered at indentation_depth + 2, wrapped in an
extra brace pair at the inner indentation, and likewise aborts if falsy. -/
def renderEntries (d : Nat) : List GraphEntry → Option String
  | [] => some ""
  | GraphEntry.triple t :: rest =>
    (renderEntries d rest).map (fun r => indent (d + 1) ++ t.get_text ++ r)
  | GraphEntry.pattern gp :: rest =>
    match SPARQLGraphPattern.get_text gp (d + 1) with
    | none => none
    | some s =>
      if s.isEmpty then none
      else (renderEntries d rest).map (fun r => s ++ r)
  | GraphEntry.select q :: rest =>
    match SPARQLSelectQuery.get_text q (d + 2) with
    | none => none
    | some s =>
      if s.isEmpty then none
      else (renderEntries d rest).map
        (fun r => indent (d + 1) ++ "\x7b" ++ s ++ indent (d + 1) ++ "\x7d\n" ++ r)

/-- SPARQLGraphPattern.get_text(indentation_depth): opening line (OPTIONAL
first, else UNION, else a plain brace), the values list, the graph entries,
the bindings, the filters, and the closing brace line; returns none exactly
when the Python code returns False because a nested render was falsy.  On a
malformed pattern the body raises (the corrupted list is iterated before the
graph loop finishes the text), the except handler fires and the empty string
is returned: some "" here, which every caller treats exactly as Python does
(falsy in truthiness tests, sliceable by [:-1]). -/
def SPARQLGraphPattern.get_text : SPARQLGraphPattern → Nat → Option String
  | SPARQLGraphPattern.malformed _, _ => some ""
  | SPARQLGraphPattern.mk opt uni graph fs bs vs, d =>
    let header : String :=
      if opt then indent d ++ "OPTIONAL \x7b\n"
      else if uni then indent d ++ "UNION\n" ++ indent d ++ "\x7b\n"
      else indent d ++ "\x7b\n"
    let valuesText : String :=
      String.join (vs.map (fun v => indent (d + 1) ++ v.get_text ++ "\n"))
    match renderEntries d graph with
    | none => none
    | some entriesText =>
      some (header ++ valuesText ++ entriesText
        ++ String.join (bs.map (fun b => indent (d + 1) ++ b.get_text ++ "\n"))
        ++ String.join (fs.map (fun f => indent (d + 1) ++ f.get_text ++ "\n"))
        ++ indent d ++ "\x7d\n")

/-- SPARQLSelectQuery.get_text(indentation_depth): prefixes, a newline, the
SELECT token with the optional DISTINCT token, the space-joined variables (or
" *" if none), a newline and the WHERE token, then the where pattern's text
with its last character sliced off (Python [:-1]), the group-by lines and the
LIMIT line.  If the where pattern renders falsy the Python slice raises and
the whole call returns the empty string, modelled as none. -/
def SPARQLSelectQuery.get_text : SPARQLSelectQuery → Nat → Option String
  | SPARQLSelectQuery.mk ps dist lim vars gs wp, d =>
    let head : String :=
      String.join (ps.map PrefixDecl.get_text)
        ++ "\n" ++ indent d ++ "SELECT " ++ (if dist then "DISTINCT " else "")
        ++ (if vars.isEmpty then " *" else String.intercalate " " vars)
        ++ "\n" ++ indent d ++ "WHERE "
    let tail : String :=
      String.join (gs.map (fun g => "\n" ++ indent d ++ g.get_text))
        ++ (if lim == 0 then "" else "\nLIMIT " ++ toString lim)
    match wp with
    | none => some (head ++ tail)
    | some gp =>
      match SPARQLGraphPattern.get_text gp d with
      | none => none
      | some s => some (head ++ pyTrimLast s ++ tail)

end

/-- Embeds the Python class SPARQLUpdateQuery (with the SPARQLQuery fields
flattened in): prefixes and the three optional patterns self.delete,
self.insert and self.where. -/
structure SPARQLUpdateQuery where
  prefixes : List PrefixDecl
  delete : Option SPARQLGraphPattern
  insert : Option SPARQLGraphPattern
  whereP : Option SPARQLGraphPattern

/-- One section of SPARQLUpdateQuery.get_text: if the pattern is unset nothing
is appended; if set, the token line and the pattern's text with the final
character sliced off (Python [:-1]) are appended; if the pattern renders
falsy the slice raises, the exception handler fires and the whole call
returns the empty string, modelled as none. -/
def upd_section (acc tok : String) (p : Option SPARQLGraphPattern) (d : Nat) :
    Option String :=
  match p with
  | none => some acc
  | some gp =>
    match gp.get_text d with
    | none => none
    | some s => some (acc ++ "\n" ++ indent d ++ tok ++ pyTrimLast s)

/-- SPARQLUpdateQuery.get_text(indentation_depth): prefixes, then the DELETE,
INSERT and WHERE sections in that order, each present only if its pattern was
set. -/
def SPARQLUpdateQuery.get_text (q : SPARQLUpdateQuery) (d : Nat) :
    Option String :=
  match upd_section (String.join (q.prefixes.map PrefixDecl.get_text))
      "DELETE " q.delete d with
  | none => none
  | some t1 =>
    match upd_section t1 "INSERT " q.insert d with
    | none => none
    | some t2 => upd_section t2 "WHERE " q.whereP d

/-- A Python object that may appear inside a list passed to add_triples:
either an actual Triple instance or some other object (carrying an arbitrary
tag for concreteness). -/
inductive PyElem where
  | triple : Triple → PyElem
  | nonTriple : String → PyElem

/-- The runtime check isinstance(element, Triple). -/
def PyElem.isTriple : PyElem → Bool
  | .triple _ => true
  | .nonTriple _ => false

/-- A Python value passed as the argument of add_triples: either a list of
objects or some non-list value (carrying an arbitrary tag). -/
inductive PyArg where
  | pylist : List PyElem → PyArg
  | nonList : String → PyArg

/-- A pattern with the given triples appended (in order) to self.graph and
every other field unchanged; this is the effect of self.graph.extend(triples). -/
def extendGraph (p : SPARQLGraphPattern) (ts : List Triple) :
    SPARQLGraphPattern :=
  match p with
  | .mk o u g f b v => .mk o u (g ++ ts.map GraphEntry.triple) f b v
  | .malformed g => .malformed (g ++ ts.map GraphEntry.triple)

/-- SPARQLGraphPattern.add_triples: if the argument is a list and every element
is a Triple instance, the triples are appended to self.graph and True is
returned; otherwise nothing is mutated and False is returned.  The result pairs
the (possibly updated) pattern with the returned boolean. -/
def SPARQLGraphPattern.add_triples (p : SPARQLGraphPattern) (arg : PyArg) :
    SPARQLGraphPattern × Bool :=
  match arg with
  | .pylist elems =>
    if elems.all PyElem.isTriple then
      (extendGraph p (elems.filterMap (fun e =>
        match e with
        | .triple t => some t
        | .nonTriple _ => none)), true)
    else (p, false)
  | .nonList _ => (p, false)

/-- Whether a graph-list entry makes its parent's render abort: a Triple never
does; a nested pattern or nested select query does exactly when its own
rendered text (at the depth the parent uses for it) is falsy. -/
def GraphEntry.renderFalsy (d : Nat) : GraphEntry → Bool
  | .triple _ => false
  | .pattern gp => falsyText (gp.get_text (d + 1))
  | .select q => falsyText (q.get_text (d + 2))

/-- Compositional description of one update-query section, used to state that
each section appears if and only if its pattern was set. -/
def sectionText (tok : String) (p : Option SPARQLGraphPattern) (d : Nat) :
    Option String :=
  match p with
  | none => some ""
  | some gp => (gp.get_text d).map (fun s => "\n" ++ indent d ++ tok ++ pyTrimLast s)

/-- Claim C1: rendering a non-optional, non-union graph pattern holding only
the triple (S, P, O) at indentation depth 0 yields exactly the text consisting
of an opening brace line, one line indented by three spaces holding the three
terms space-separated and terminated by a space, a period, a space and a
newline, and a closing brace line. -/
theorem claim_C1 : ∀ (S P O : String),
    (SPARQLGraphPattern.mk false false
        [GraphEntry.triple (Triple.mk S P O)] [] [] []).get_text 0
      = some ("\x7b\n   " ++ S ++ " " ++ P ++ " " ++ O ++ " . \n\x7d\n") := by
  intro S P O
  simp [SPARQLGraphPattern.get_text, renderEntries, Triple.get_text, indent,
    String.join, String.append_assoc]
  rfl

/-- Recovering the Triple payloads from a list of wrapped Triple objects gives
back the original list. -/
theorem filterMap_triple_payload (ts : List Triple) :
    (ts.map PyElem.triple).filterMap (fun e =>
      match e with
      | PyElem.triple t => some t
      | PyElem.nonTriple _ => none) = ts := by
  induction ts with
  | nil => rfl
  | cons t rest ih => simp [ih]

/-- Claim C4: add_triples applied to a list of Triple objects appends them in
order to the graph list and returns True; applied to a non-list value, or to a
list containing a non-Triple element, it returns False and leaves the pattern
(all fields, in particular the child list) unchanged. -/
theorem claim_C4 :
    (∀ (p : SPARQLGraphPattern) (ts : List Triple),
      p.add_triples (PyArg.pylist (ts.map PyElem.triple))
        = (extendGraph p ts, true))
    ∧ (∀ (p : SPARQLGraphPattern) (ts : List Triple),
      (extendGraph p ts).graph = p.graph ++ ts.map GraphEntry.triple)
    ∧ (∀ (p : SPARQLGraphPattern) (tag : String),
      p.add_triples (PyArg.nonList tag) = (p, false))
    ∧ (∀ (p : SPARQLGraphPattern) (pre post : List PyElem) (tag : String),
      p.add_triples (PyArg.pylist (pre ++ PyElem.nonTriple tag :: post))
        = (p, false)) := by
  refine ⟨?_, ?_, ?_, ?_⟩
  · intro p ts
    simp only [SPARQLGraphPattern.add_triples, filterMap_triple_payload]
    simp [List.all_map, PyElem.isTriple]
  · intro p ts
    cases p <;> simp [extendGraph, SPARQLGraphPattern.graph]
  · intro p tag
    rfl
  · intro p pre post tag
    simp [SPARQLGraphPattern.add_triples, List.all_append, PyElem.isTriple]

/-- Claim C5: Values.get_text renders the VALUES keyword, the variable name and
the space-joined values inside braces, each value first normalized by
in_brackets; a value already starting with an opening angle bracket or not
starting with http passes through unchanged, and the documented example with
two https URIs renders with both wrapped in angle brackets. -/
theorem claim_C5 :
    (∀ (vals : List String) (nm : String),
      ( Values.mk vals nm).get_text
        = "VALUES " ++ nm ++ " \x7b"
          ++ String.intercalate " " (vals.map in_brackets) ++ "\x7d")
    ∧ ( Values.mk ["https://x/1", "https://x/2"] "?v").get_text
        = "VALUES ?v \x7b<https://x/1> <https://x/2>\x7d"
    ∧ in_brackets "<https://x/1>" = "<https://x/1>"
    ∧ in_brackets "ex:Foo" = "ex:Foo" := by
  exact ⟨fun vals nm => rfl, by rfl, by rfl, by rfl⟩

/-- Claim C6: Binding, IfClause and Bound resolve each value slot by passing a
plain string through verbatim and recursively rendering a nested renderable;
the documented BIND-of-IF-of-BOUND example renders fully expanded inline, and
a five-level nesting renders fully expanded without truncation. -/
theorem claim_C6 :
    (∀ (v : BindValue) (x : String),
      (Binding.mk v x).get_text = "BIND (" ++ v.get_text ++ " AS " ++ x ++ ")")
    ∧ (∀ (s : String), (BindValue.str s).get_text = s)
    ∧ (∀ (v : BindValue),
      (BindValue.bound v).get_text = "BOUND (" ++ v.get_text ++ ")")
    ∧ (∀ (c t f : BindValue),
      (BindValue.ifClause c t f).get_text
        = "IF (" ++ c.get_text ++ ", " ++ t.get_text ++ ", " ++ f.get_text ++ ")")
    ∧ (Binding.mk (BindValue.ifClause (BindValue.bound (BindValue.str "?address"))
          (BindValue.str "?address") (BindValue.str "Unknown")) "?address").get_text
        = "BIND (IF (BOUND (?address), ?address, Unknown) AS ?address)"
    ∧ (Binding.mk (BindValue.ifClause
          (BindValue.bound (BindValue.ifClause
            (BindValue.bound (BindValue.bound (BindValue.str "?x")))
            (BindValue.str "?y") (BindValue.str "?z")))
          (BindValue.str "?a") (BindValue.str "?b")) "?w").get_text
        = "BIND (IF (BOUND (IF (BOUND (BOUND (?x)), ?y, ?z)), ?a, ?b) AS ?w)" := by
  exact ⟨fun v x => rfl, fun s => rfl, fun v => rfl, fun c t f => rfl, by rfl, by rfl⟩

/-- Claim C9: a select query whose where pattern was never set and that has no
group-by clauses and no limit still emits the WHERE token with nothing after
it: the rendered text ends with the dangling WHERE clause. -/
theorem claim_C9 : ∀ (ps : List PrefixDecl) (vars : List String) (dist : Bool),
    (SPARQLSelectQuery.mk ps dist 0 vars [] none).get_text 0
      = some (String.join (ps.map PrefixDecl.get_text)
          ++ "\nSELECT " ++ (if dist then "DISTINCT " else "")
          ++ (if vars.isEmpty then " *" else String.intercalate " " vars)
          ++ "\nWHERE ") := by
  intro ps vars dist
  simp [SPARQLSelectQuery.get_text, indent, String.join, String.append_assoc]

/-- Joining two strings with a single space. -/
theorem intercalate_pair (a b : String) :
    String.intercalate " " [a, b] = a ++ " " ++ b := rfl

/-- Slicing the last character off a text that ends with a closing brace line
removes exactly the final newline. -/
theorem pyTrimLast_close (X : String) :
    pyTrimLast (X ++ "\x7d\n") = X ++ "\x7d" := by
  apply String.ext
  simp only [pyTrimLast, List.asString, String.data_append]
  rw [List.dropLast_append_cons]
  rfl

/-- An update-query section accumulated onto acc is the compositional section
text appended to acc. -/
theorem upd_section_eq (acc tok : String) (p : Option SPARQLGraphPattern)
    (d : Nat) :
    upd_section acc tok p d = (sectionText tok p d).map (fun s => acc ++ s) := by
  cases p with
  | none => simp [upd_section, sectionText]
  | some gp =>
    cases hg : gp.get_text d with
    | none => simp [upd_section, sectionText, hg]
    | some s => simp [upd_section, sectionText, hg, String.append_assoc]

/-- The graph-entry loop renders to none exactly when some entry in the list
is a nested pattern or nested select query whose own render is falsy. -/
theorem renderEntries_eq_none (d : Nat) (es : List GraphEntry) :
    renderEntries d es = none ↔ ∃ e ∈ es, GraphEntry.renderFalsy d e = true := by
  induction es with
  | nil => simp [renderEntries]
  | cons e rest ih =>
    cases e with
    | triple t =>
      simp [renderEntries, GraphEntry.renderFalsy, ih]
    | pattern gp =>
      cases hg : gp.get_text (d + 1) with
      | none => simp [renderEntries, GraphEntry.renderFalsy, falsyText, hg]
      | some s =>
        by_cases hse : s.isEmpty <;>
          simp [renderEntries, GraphEntry.renderFalsy, falsyText, hg, hse, ih]
    | select q =>
      cases hg : q.get_text (d + 2) with
      | none => simp [renderEntries, GraphEntry.renderFalsy, falsyText, hg]
      | some s =>
        by_cases hse : s.isEmpty <;>
          simp [renderEntries, GraphEntry.renderFalsy, falsyText, hg, hse, ih]

/-- Claim C2: a select query with one prefix, two variables, a where pattern of
two triples, one group-by and a limit of 100 renders, in this exact order, as
the prefix line, a blank line, the SELECT line with both variables space-joined
(preceded by DISTINCT only if the distinct flag is set), the WHERE token
followed by the where pattern's text with its final trailing newline trimmed,
the GROUP BY line and the LIMIT 100 line, with no extra blank lines beyond the
one after the prefixes. -/
theorem claim_C2 : ∀ (px nsp v1 v2 : String) (t1 t2 : Triple)
    (gvs : List String) (dist : Bool),
    (SPARQLSelectQuery.mk [PrefixDecl.mk px nsp] dist 100 [v1, v2]
        [GroupBy.mk gvs]
        (some (SPARQLGraphPattern.mk false false
          [GraphEntry.triple t1, GraphEntry.triple t2] [] [] []))).get_text 0
      = some ("PREFIX " ++ px ++ ": <" ++ nsp ++ ">\n"
          ++ "\n" ++ "SELECT " ++ (if dist then "DISTINCT " else "")
          ++ v1 ++ " " ++ v2
          ++ "\nWHERE " ++ "\x7b\n   "
          ++ t1.subject ++ " " ++ t1.predicate ++ " " ++ t1.object ++ " . \n   "
          ++ t2.subject ++ " " ++ t2.predicate ++ " " ++ t2.object ++ " . \n\x7d"
          ++ "\nGROUP BY " ++ String.intercalate " " gvs
          ++ "\nLIMIT 100") := by
  intro px nsp v1 v2 t1 t2 gvs dist
  have hw : (SPARQLGraphPattern.mk false false
      [GraphEntry.triple t1, GraphEntry.triple t2] [] [] []).get_text 0
      = some (("\x7b\n   " ++ t1.subject ++ " " ++ t1.predicate ++ " "
          ++ t1.object ++ " . \n   " ++ t2.subject ++ " " ++ t2.predicate ++ " "
          ++ t2.object ++ " . \n") ++ "\x7d\n") := by
    simp [SPARQLGraphPattern.get_text, renderEntries, Triple.get_text, indent,
      String.join, String.append_assoc]
    rfl
  simp only [SPARQLSelectQuery.get_text, hw, pyTrimLast_close]
  simp [PrefixDecl.get_text, GroupBy.get_text, indent, String.join,
    intercalate_pair, String.append_assoc]
  rfl

/-- Claim C3: a graph pattern's get_text aborts with the falsy result none
(the model of Python returning False) exactly when some entry of its graph
list is a nested pattern or nested select query whose own render is empty or
falsy; in particular no partial parent text is ever returned when a nested
child fails — the abort is reachable, e.g. through a child whose fields were
corrupted so that its own render is the empty string. -/
theorem claim_C3 : ∀ (o u : Bool) (g : List GraphEntry) (fs : List FilterEntry)
    (bs : List Binding) (vs : List Values) (d : Nat),
    (SPARQLGraphPattern.mk o u g fs bs vs).get_text d = none
      ↔ ∃ e ∈ g, GraphEntry.renderFalsy d e = true := by
  intro o u g fs bs vs d
  rw [← renderEntries_eq_none d g]
  simp only [SPARQLGraphPattern.get_text]
  cases hr : renderEntries d g with
  | none => simp [hr]
  | some et => simp [hr]

/-- Witness for claim C3: a pattern containing one nested malformed child
(whose own render is the falsy empty string) renders to none — the abort is
exercised, not vacuous, and no partial text is returned. -/
theorem claim_C3_witness :
    (SPARQLGraphPattern.mk false false
        [GraphEntry.pattern (SPARQLGraphPattern.malformed [])] [] [] []).get_text 0
      = none :=
  (claim_C3 false false [GraphEntry.pattern (SPARQLGraphPattern.malformed [])]
      [] [] [] 0).mpr
    ⟨GraphEntry.pattern (SPARQLGraphPattern.malformed []), by simp, by rfl⟩

/-- Claim C7: an update query renders its DELETE, INSERT and WHERE sections in
that order, each present exactly when its pattern was set and each holding the
pattern's text with the final trailing newline trimmed; in particular a query
with only a delete pattern and a where pattern renders the DELETE section
followed by the WHERE section with no INSERT token. -/
theorem claim_C7 :
    (∀ (ps : List PrefixDecl) (dopt iopt wopt : Option SPARQLGraphPattern)
        (d : Nat),
      (SPARQLUpdateQuery.mk ps dopt iopt wopt).get_text d
        = (sectionText "DELETE " dopt d).bind (fun a =>
            (sectionText "INSERT " iopt d).bind (fun b =>
              (sectionText "WHERE " wopt d).map (fun c =>
                String.join (ps.map PrefixDecl.get_text) ++ a ++ b ++ c))))
    ∧ (SPARQLUpdateQuery.mk [] (some (SPARQLGraphPattern.mk false false [] [] [] []))
          none (some (SPARQLGraphPattern.mk false false [] [] [] []))).get_text 0
        = some "\nDELETE \x7b\n\x7d\nWHERE \x7b\n\x7d" := by
  constructor
  · intro ps dopt iopt wopt d
    simp only [SPARQLUpdateQuery.get_text, upd_section_eq]
    cases hd : sectionText "DELETE " dopt d <;>
      cases hi : sectionText "INSERT " iopt d <;>
        cases hw : sectionText "WHERE " wopt d <;>
          simp [String.append_assoc]
  · rfl

/-- Claim C8: a pattern constructed with both the optional and the union flag
renders identically to one with only the optional flag (the union marking is
ignored), and whenever its render succeeds the text opens with the OPTIONAL
keyword and an opening brace at the outer indentation. -/
theorem claim_C8 : ∀ (g : List GraphEntry) (fs : List FilterEntry)
    (bs : List Binding) (vs : List Values) (d : Nat),
    ((SPARQLGraphPattern.mk true true g fs bs vs).get_text d
        = (SPARQLGraphPattern.mk true false g fs bs vs).get_text d)
    ∧ (∀ s : String,
        (SPARQLGraphPattern.mk true true g fs bs vs).get_text d = some s →
          ∃ rest, s = indent d ++ "OPTIONAL \x7b\n" ++ rest) := by
  intro g fs bs vs d
  constructor
  · rfl
  · intro s hs
    simp only [SPARQLGraphPattern.get_text] at hs
    cases hr : renderEntries d g with
    | none => simp [hr] at hs
    | some et =>
      simp only [hr, Option.some.injEq, if_true] at hs
      subst hs
      exact ⟨String.join (List.map (fun v => indent (d + 1) ++ v.get_text ++ "\n") vs)
        ++ et
        ++ String.join (List.map (fun b => indent (d + 1) ++ b.get_text ++ "\n") bs)
        ++ String.join (List.map (fun f => indent (d + 1) ++ f.get_text ++ "\n") fs)
        ++ indent d ++ "\x7d\n", by simp [String.append_assoc]⟩

/-- Witness for claim C8: the empty doubly-flagged pattern renders successfully
and its text opens with the OPTIONAL keyword and brace. -/
theorem claim_C8_witness :
    ∃ rest, "OPTIONAL \x7b\n\x7d\n" = indent 0 ++ "OPTIONAL \x7b\n" ++ rest :=
  (claim_C8 [] [] [] [] 0).2 "OPTIONAL \x7b\n\x7d\n" (by rfl)

/-- Claim C10: in_brackets wraps in angle brackets exactly those strings that
start with the four characters http and do not start with an opening angle
bracket, regardless of whether they are valid HTTP or HTTPS URIs: httpfoo is
wrapped while Http://x and ftp://x pass through unchanged. -/
theorem claim_C10 :
    (∀ u : String, in_brackets u
        = if py_startswith u "<" = false ∧ py_startswith u "http" = true
          then "<" ++ u ++ ">" else u)
    ∧ in_brackets "httpfoo" = "<httpfoo>"
    ∧ in_brackets "Http://x" = "Http://x"
    ∧ in_brackets "ftp://x" = "ftp://x" := by
  refine ⟨?_, by rfl, by rfl, by rfl⟩
  intro u
  unfold in_brackets
  cases h1 : py_startswith u "<" <;> cases h2 : py_startswith u "http" <;>
    simp [h1, h2]

end SPARQLBurger
